import Mathlib

set_option maxRecDepth 8192

/-!
Verification of the FAQ-answering logic of the nonprofit platform
(`app.py` and `AI_app.py`).  The chatbot core is embedded shallowly:
Python strings are Lean `String`s, the Python string operations used by
the code (`in`, `.lower()`, `.strip()`, slicing, `len`) are given
executable Lean counterparts over the underlying character lists, and
the generative backend (a Hugging Face model in `AI_app.py`) is an
abstract collaborator that either returns decoded text or fails,
modelling a raised exception.
-/

/-- Python substring containment `needle in haystack` on character lists:
true when `needle` is a contiguous infix of the list. -/
def strIn (needle : List Char) : List Char → Bool
  | [] => needle.isEmpty
  | c :: rest => needle.isPrefixOf (c :: rest) || strIn needle rest

/-- Python `needle in haystack` for strings. -/
def pyIn (needle haystack : String) : Bool :=
  strIn needle.data haystack.data

/-- Python `s.lower()` (the code only relies on ASCII letters). -/
def pyLower (s : String) : String :=
  ⟨s.data.map Char.toLower⟩

/-- Python `len(s)`. -/
def pyLen (s : String) : Nat :=
  s.data.length

/-- Python `s.strip()`: drop leading and trailing whitespace. -/
def pyStrip (s : String) : String :=
  ⟨((s.data.dropWhile Char.isWhitespace).reverse.dropWhile Char.isWhitespace).reverse⟩

/-- Python slicing `s[:n]`. -/
def pyTake (s : String) (n : Nat) : String :=
  ⟨s.data.take n⟩

/-- Python slicing `s[n:]`. -/
def pyDrop (s : String) (n : Nat) : String :=
  ⟨s.data.drop n⟩

/-- The FAQ categories of the spec's data model: one per rule of the
keyword chain in `get_chatbot_answer` (AI_app.py lines 113-129), plus
the catch-all `unmatched`. -/
inductive Category where
  | hours
  | volunteer
  | donate
  | programs
  | contact
  | emergency
  | unmatched
  deriving DecidableEq

/-- The generative backend collaborator (AI_app.py `generate_ai_response`
lines 158-172): given the encoded prompt and the `max_length` bound it
either returns the decoded model output (which echoes the prompt) or
fails, modelling an exception raised during inference. -/
structure Backend where
  generate : String → Nat → Except Unit String

/-- AI_app.py line 154: the fixed organizational context prepended to the
question before generation. -/
def nonprofit_context : String :=
  "You are a helpful assistant for a nonprofit organization that provides community services including youth mentoring, job training, food assistance, housing support, and emergency services. "

/-- AI_app.py `generate_ai_response` (lines 144-184).  `ai_model = none`
models `not ai_model or not HF_AVAILABLE`; the `Except.error` branch of
the backend models an exception during generation, caught by the
function's `try`/`except` which returns `None`.  The generation call
passes `max_length` = prompt length + 50 (line 164; token positions are
abstracted to character positions); the echoed prompt is stripped from
the decoded output (line 175) and the result is truncated to 200
characters with an ellipsis when longer (lines 178-179). -/
def generate_ai_response (ai_model : Option Backend) (question : String) :
    Option String :=
  match ai_model with
  | none => none
  | some b =>
    let full_input := nonprofit_context ++ question
    match b.generate full_input (pyLen full_input + 50) with
    | Except.error _ => none
    | Except.ok decoded =>
      let response := pyStrip (pyDrop decoded (pyLen full_input))
      some (if 200 < pyLen response then pyTake response 200 ++ "..." else response)

namespace AIApp

/-- AI_app.py line 114: the Hours template. -/
def hoursResponse : String :=
  "🕒 **Our Hours:** Monday-Friday 9 AM to 6 PM, Saturday 10 AM to 4 PM. We're closed on Sundays and major holidays. For emergency assistance, please call our 24/7 helpline at (555) 999-HELP."

/-- AI_app.py line 117: the Volunteer template. -/
def volunteerResponse : String :=
  "🤝 **Volunteer Opportunities:** We'd love your help! Current openings include tutoring, food service, event planning, and administrative support. Please visit our website to complete the volunteer application and background check."

/-- AI_app.py line 120: the Donate template. -/
def donateResponse : String :=
  "💝 **Donations:** Thank you for your generosity! You can donate online at our secure portal, by phone (555) 123-4567, or mail checks to 123 Community St. All donations are tax-deductible!"

/-- AI_app.py line 123: the Programs template. -/
def programsResponse : String :=
  "📋 **Our Programs:** Youth Mentoring (ages 12-18), Job Training, Food Assistance, Housing Support, Educational Workshops, and Senior Services. Which program would you like to learn more about?"

/-- AI_app.py line 126: the Contact template. -/
def contactResponse : String :=
  "📞 **Contact Information:** Phone: (555) 123-4567 | Email: info@nonprofitcommunity.org | Address: 123 Community St, City, State 12345 | Emergency Helpline: (555) 999-HELP (24/7)"

/-- AI_app.py line 129: the Emergency template. -/
def emergencyResponse : String :=
  "🆘 **Emergency Resources:** Crisis Hotline: (555) 999-HELP (24/7) | Emergency Food: Available during office hours | Mental Health: Free counseling referrals | If this is life-threatening, please call 911."

/-- AI_app.py line 142: the fixed default fallback message. -/
def defaultResponse : String :=
  "Thanks for your question! I can help you with information about our **hours, volunteer opportunities, donations, programs, contact information,** and **emergency resources**. What would you like to know more about?"

/-- AI_app.py line 136: the wrapper around a successful AI reply. -/
def aiWrapResponse (ai_response : String) : String :=
  "🤖 **AI Assistant:** " ++ ai_response ++ "\n\n💡 *For specific information about our programs, try asking about hours, volunteering, donations, or services.*"

/-- AI_app.py `get_chatbot_answer` (lines 108-142): the keyword chain over
the lowercased question, then the AI fallback guarded by
`ai_model and HF_AVAILABLE` (modelled by `Option Backend`), with the
truthiness-and-strip check of line 135, and the fixed default of
line 142. -/
def get_chatbot_answer (ai_model : Option Backend) (question : String) : String :=
  let question_lower := pyLower question
  if pyIn "hours" question_lower || pyIn "time" question_lower then
    hoursResponse
  else if pyIn "volunteer" question_lower then
    volunteerResponse
  else if pyIn "donate" question_lower then
    donateResponse
  else if pyIn "programs" question_lower || pyIn "services" question_lower then
    programsResponse
  else if pyIn "contact" question_lower || pyIn "phone" question_lower || pyIn "email" question_lower then
    contactResponse
  else if pyIn "emergency" question_lower || pyIn "crisis" question_lower || pyIn "urgent" question_lower then
    emergencyResponse
  else
    match ai_model with
    | some _ =>
      match generate_ai_response ai_model question with
      | some ai_response =>
        if ai_response ≠ "" ∧ 0 < pyLen (pyStrip ai_response) then
          aiWrapResponse ai_response
        else
          defaultResponse
      | none => defaultResponse
    | none => defaultResponse

end AIApp

namespace SimpleApp

/-- app.py line 20: the Hours answer. -/
def hoursAnswer : String :=
  "We're open Monday-Friday 9 AM to 6 PM, Saturday 10 AM to 4 PM"

/-- app.py line 23: the Volunteer answer. -/
def volunteerAnswer : String :=
  "We'd love your help! We need volunteers for tutoring, food service, and events. Visit our website to apply!"

/-- app.py line 26: the Donate answer. -/
def donateAnswer : String :=
  "Thank you! You can donate online, by phone (555-123-4567), or visit our office at 123 Community St."

/-- app.py line 29: the Programs answer. -/
def programsAnswer : String :=
  "We offer youth mentoring, job training, food assistance, and housing support. Which interests you?"

/-- app.py line 32: the fallback, an f-string that interpolates the
lowercased question. -/
def defaultAnswer (question : String) : String :=
  "Thanks for asking about '" ++ question ++ "'. Try asking about our hours, volunteer opportunities, donations, or programs!"

/-- app.py `get_chatbot_answer` (lines 15-32): the question is lowercased
in place (line 16) and the fallback interpolates the lowercased value. -/
def get_chatbot_answer (question : String) : String :=
  let question := pyLower question
  if pyIn "hours" question || pyIn "time" question then
    hoursAnswer
  else if pyIn "volunteer" question then
    volunteerAnswer
  else if pyIn "donate" question then
    donateAnswer
  else if pyIn "programs" question || pyIn "services" question then
    programsAnswer
  else
    defaultAnswer question

end SimpleApp

/-- The category selected by the keyword chain of
`AIApp.get_chatbot_answer` (AI_app.py lines 113-129): same conditions,
in the same order, returning the category instead of its template. -/
def classify (question : String) : Category :=
  let question_lower := pyLower question
  if pyIn "hours" question_lower || pyIn "time" question_lower then
    Category.hours
  else if pyIn "volunteer" question_lower then
    Category.volunteer
  else if pyIn "donate" question_lower then
    Category.donate
  else if pyIn "programs" question_lower || pyIn "services" question_lower then
    Category.programs
  else if pyIn "contact" question_lower || pyIn "phone" question_lower || pyIn "email" question_lower then
    Category.contact
  else if pyIn "emergency" question_lower || pyIn "crisis" question_lower || pyIn "urgent" question_lower then
    Category.emergency
  else
    Category.unmatched

/-- The spec's fixed, ordered list of (category, keyword-set) pairs, in
the stated priority order. -/
def keywordTable : List (Category × List String) :=
  [(Category.hours, ["hours", "time"]),
   (Category.volunteer, ["volunteer"]),
   (Category.donate, ["donate"]),
   (Category.programs, ["programs", "services"]),
   (Category.contact, ["contact", "phone", "email"]),
   (Category.emergency, ["emergency", "crisis", "urgent"])]

/-- Whether a keyword set has a substring match in the lowercased input. -/
def matchesKeywords (question : String) (kws : List String) : Bool :=
  kws.any (fun kw => pyIn kw (pyLower question))

/-- Modelled from the spec's words (section 4.1): evaluate the fixed,
ordered keyword table and return the first category whose keyword set
has a substring match in the lowercased input, `unmatched` when none
matches.  Compared against `classify`, which is read off the source's
`if`/`elif` chain. -/
def classifySpec (question : String) : Category :=
  match keywordTable.find? (fun p => matchesKeywords question p.2) with
  | some p => p.1
  | none => Category.unmatched

/-- The template text per category (the return strings of the chain in
AI_app.py lines 113-129); `unmatched` has no template, its handling is
the fallback block of lines 131-142. -/
def templateOf : Category → Option String
  | Category.hours => some AIApp.hoursResponse
  | Category.volunteer => some AIApp.volunteerResponse
  | Category.donate => some AIApp.donateResponse
  | Category.programs => some AIApp.programsResponse
  | Category.contact => some AIApp.contactResponse
  | Category.emergency => some AIApp.emergencyResponse
  | Category.unmatched => none

/-- Abstraction of a parsed `pandas` DataFrame: the quantities the tab-2
upload handler of AI_app.py (lines 318-371) reads off it. -/
structure DataFrame where
  rows : Nat
  cols : Nat
  missingValues : Nat
  deriving DecidableEq

/-- What the tab-2 upload handler leaves behind: the session-state
`data` entry and whether an error box was shown. -/
structure UploadOutcome where
  sessionData : Option DataFrame
  errorShown : Bool
  deriving DecidableEq

/-- AI_app.py tab-2 upload handler (lines 318-371).  `parsed` is the
outcome of `pd.read_csv` (line 321); an exception there is the
`Except.error` case, caught by the handler's `except` (line 368) which
shows an error and leaves `st.session_state` untouched.  On a parse
success the handler shows messages and computes the completeness ratio
`((rows*cols) - missing) / (rows*cols) * 100` (line 348), which raises
`ZeroDivisionError` when `rows*cols = 0` — also caught by the `except`
before the assignment `st.session_state['data'] = data` (line 366), so
the session entry is assigned only when every step before line 366
succeeded. -/
def tab2_upload (parsed : Except String DataFrame)
    (sessionData : Option DataFrame) : UploadOutcome :=
  match parsed with
  | Except.error _ => { sessionData := sessionData, errorShown := true }
  | Except.ok data =>
    if data.rows * data.cols = 0 then
      { sessionData := sessionData, errorShown := true }
    else
      { sessionData := some data, errorShown := false }

/-- A backend whose generation raises on every call. -/
def failingBackend : Backend :=
  { generate := fun _ _ => Except.error () }

/-- A backend that echoes the prompt and appends a short reply. -/
def chattyBackend : Backend :=
  { generate := fun prompt _ => Except.ok (prompt ++ "Sure, happy to help!") }


lemma toLower_of_isWhitespace {c : Char} (h : c.isWhitespace = true) :
    c.toLower = c := by
  simp only [Char.isWhitespace, Bool.or_eq_true, decide_eq_true_eq] at h
  rcases h with ((h | h) | h) | h <;> subst h <;> decide

lemma strIn_subset {needle l : List Char} (h : strIn needle l = true) :
    needle ⊆ l := by
  induction l with
  | nil =>
    cases needle with
    | nil => exact fun _ h => h
    | cons c cs => simp [strIn, List.isEmpty] at h
  | cons a rest ih =>
    simp only [strIn, Bool.or_eq_true] at h
    rcases h with h | h
    · exact (List.isPrefixOf_iff_prefix.mp h).subset
    · exact fun x hx => List.mem_cons_of_mem a (ih h hx)

lemma strIn_eq_false_of_ws {needle l : List Char} {c : Char} (hc : c ∈ needle)
    (hcw : c.isWhitespace = false) (hl : ∀ x ∈ l, x.isWhitespace = true) :
    strIn needle l = false := by
  by_contra h
  have hsub := strIn_subset (Bool.of_not_eq_false h)
  have hw := hl c (hsub hc)
  rw [hw] at hcw
  exact Bool.noConfusion hcw

lemma pyIn_pyLower_eq_false_of_ws (kw : String) (c : Char) (hc : c ∈ kw.data)
    (hcw : c.isWhitespace = false) {q : String}
    (hq : ∀ x ∈ q.data, x.isWhitespace = true) :
    pyIn kw (pyLower q) = false := by
  apply strIn_eq_false_of_ws hc hcw
  intro x hx
  simp only [pyLower, List.mem_map] at hx
  obtain ⟨y, hy, rfl⟩ := hx
  rw [toLower_of_isWhitespace (hq y hy)]
  exact hq y hy

lemma classify_ws_unmatched {q : String}
    (hq : ∀ x ∈ q.data, x.isWhitespace = true) :
    classify q = Category.unmatched := by
  have h1 := pyIn_pyLower_eq_false_of_ws "hours" 'h' (by decide) (by decide) hq
  have h2 := pyIn_pyLower_eq_false_of_ws "time" 't' (by decide) (by decide) hq
  have h3 := pyIn_pyLower_eq_false_of_ws "volunteer" 'v' (by decide) (by decide) hq
  have h4 := pyIn_pyLower_eq_false_of_ws "donate" 'd' (by decide) (by decide) hq
  have h5 := pyIn_pyLower_eq_false_of_ws "programs" 'p' (by decide) (by decide) hq
  have h6 := pyIn_pyLower_eq_false_of_ws "services" 's' (by decide) (by decide) hq
  have h7 := pyIn_pyLower_eq_false_of_ws "contact" 'c' (by decide) (by decide) hq
  have h8 := pyIn_pyLower_eq_false_of_ws "phone" 'p' (by decide) (by decide) hq
  have h9 := pyIn_pyLower_eq_false_of_ws "email" 'e' (by decide) (by decide) hq
  have h10 := pyIn_pyLower_eq_false_of_ws "emergency" 'e' (by decide) (by decide) hq
  have h11 := pyIn_pyLower_eq_false_of_ws "crisis" 'c' (by decide) (by decide) hq
  have h12 := pyIn_pyLower_eq_false_of_ws "urgent" 'u' (by decide) (by decide) hq
  simp [classify, h1, h2, h3, h4, h5, h6, h7, h8, h9, h10, h11, h12]

lemma classify_unmatched_iff (q : String) :
    classify q = Category.unmatched ↔
      pyIn "hours" (pyLower q) = false ∧ pyIn "time" (pyLower q) = false ∧
      pyIn "volunteer" (pyLower q) = false ∧ pyIn "donate" (pyLower q) = false ∧
      pyIn "programs" (pyLower q) = false ∧ pyIn "services" (pyLower q) = false ∧
      pyIn "contact" (pyLower q) = false ∧ pyIn "phone" (pyLower q) = false ∧
      pyIn "email" (pyLower q) = false ∧ pyIn "emergency" (pyLower q) = false ∧
      pyIn "crisis" (pyLower q) = false ∧ pyIn "urgent" (pyLower q) = false := by
  simp only [classify]
  split_ifs with h1 h2 h3 h4 h5 h6 <;> simp_all <;> intros <;> simp_all

lemma answer_matched {q t : String} (h : templateOf (classify q) = some t)
    (ai_model : Option Backend) :
    AIApp.get_chatbot_answer ai_model q = t := by
  simp only [classify] at h
  simp only [AIApp.get_chatbot_answer]
  split_ifs at h ⊢ <;> simp_all [templateOf]

lemma answer_unmatched_none {q : String} (h : classify q = Category.unmatched) :
    AIApp.get_chatbot_answer none q = AIApp.defaultResponse := by
  obtain ⟨h1, h2, h3, h4, h5, h6, h7, h8, h9, h10, h11, h12⟩ :=
    (classify_unmatched_iff q).mp h
  simp [AIApp.get_chatbot_answer, h1, h2, h3, h4, h5, h6, h7, h8, h9, h10, h11, h12]

lemma answer_unmatched_some {q : String} (b : Backend)
    (h : classify q = Category.unmatched) :
    AIApp.get_chatbot_answer (some b) q =
      match generate_ai_response (some b) q with
      | some ai_response =>
        if ai_response ≠ "" ∧ 0 < pyLen (pyStrip ai_response) then
          AIApp.aiWrapResponse ai_response
        else
          AIApp.defaultResponse
      | none => AIApp.defaultResponse := by
  obtain ⟨h1, h2, h3, h4, h5, h6, h7, h8, h9, h10, h11, h12⟩ :=
    (classify_unmatched_iff q).mp h
  simp [AIApp.get_chatbot_answer, h1, h2, h3, h4, h5, h6, h7, h8, h9, h10, h11, h12]

lemma simple_answer_unmatched {q : String} (h : classify q = Category.unmatched) :
    SimpleApp.get_chatbot_answer q = SimpleApp.defaultAnswer (pyLower q) := by
  obtain ⟨h1, h2, h3, h4, h5, h6, _, _, _, _, _, _⟩ :=
    (classify_unmatched_iff q).mp h
  simp [SimpleApp.get_chatbot_answer, h1, h2, h3, h4, h5, h6]

lemma data_append (s t : String) : (s ++ t).data = s.data ++ t.data := by
  cases s; cases t; rfl

lemma pyLen_append (s t : String) : pyLen (s ++ t) = pyLen s + pyLen t := by
  simp [pyLen, data_append]

lemma pyLen_pos_iff_ne_empty (s : String) : 0 < pyLen s ↔ s ≠ "" := by
  cases s with
  | mk l =>
    cases l with
    | nil => simp [pyLen]
    | cons c cs =>
      simp only [pyLen, List.length_cons]
      constructor
      · intro _ he
        have hd : (String.mk (c :: cs)).data = ("" : String).data :=
          congrArg String.data he
        simp at hd
      · intro _; exact Nat.succ_pos _

lemma pyLen_aiWrap_pos (r : String) : 0 < pyLen (AIApp.aiWrapResponse r) := by
  simp only [AIApp.aiWrapResponse]
  rw [pyLen_append, pyLen_append]
  have h : 0 < pyLen "🤖 **AI Assistant:** " := by decide
  omega

lemma pyLen_pyTake_le (s : String) (n : Nat) : pyLen (pyTake s n) ≤ n := by
  simp only [pyLen, pyTake, List.length_take]
  exact min_le_left _ _

/-- C1: the keyword chain of `get_chatbot_answer` (read off the source as
`classify`) selects, for every input string, exactly the first category of
the spec's fixed, ordered (category, keyword-set) table whose keyword set
has a substring match in the lowercased input, in the priority order
hours/time, volunteer, donate, programs/services, contact/phone/email,
emergency/crisis/urgent, with `unmatched` when no keyword matches. -/
theorem claim_C1 (q : String) : classify q = classifySpec q := by
  unfold classify classifySpec keywordTable
  by_cases h1 : (pyIn "hours" (pyLower q) || pyIn "time" (pyLower q)) = true
  · rw [List.find?_cons_of_pos _ (by simpa [matchesKeywords] using h1)]
    simp [h1]
  · rw [List.find?_cons_of_neg _ (by simpa [matchesKeywords] using h1)]
    by_cases h2 : pyIn "volunteer" (pyLower q) = true
    · rw [List.find?_cons_of_pos _ (by simpa [matchesKeywords] using h2)]
      simp [h1, h2]
    · rw [List.find?_cons_of_neg _ (by simpa [matchesKeywords] using h2)]
      by_cases h3 : pyIn "donate" (pyLower q) = true
      · rw [List.find?_cons_of_pos _ (by simpa [matchesKeywords] using h3)]
        simp [h1, h2, h3]
      · rw [List.find?_cons_of_neg _ (by simpa [matchesKeywords] using h3)]
        by_cases h4 : (pyIn "programs" (pyLower q) || pyIn "services" (pyLower q)) = true
        · rw [List.find?_cons_of_pos _ (by simpa [matchesKeywords] using h4)]
          simp [h1, h2, h3, h4]
        · rw [List.find?_cons_of_neg _ (by simpa [matchesKeywords] using h4)]
          by_cases h5 : (pyIn "contact" (pyLower q) || pyIn "phone" (pyLower q) || pyIn "email" (pyLower q)) = true
          · rw [List.find?_cons_of_pos _ (by simpa [matchesKeywords, or_assoc, and_assoc] using h5)]
            simp [h1, h2, h3, h4, h5]
          · rw [List.find?_cons_of_neg _ (by simpa [matchesKeywords, or_assoc, and_assoc] using h5)]
            by_cases h6 : (pyIn "emergency" (pyLower q) || pyIn "crisis" (pyLower q) || pyIn "urgent" (pyLower q)) = true
            · rw [List.find?_cons_of_pos _ (by simpa [matchesKeywords, or_assoc, and_assoc] using h6)]
              simp [h1, h2, h3, h4, h5, h6]
            · rw [List.find?_cons_of_neg _ (by simpa [matchesKeywords, or_assoc, and_assoc] using h6)]
              simp [h1, h2, h3, h4, h5, h6, List.find?]

/-- C2: for every input whose lowercasing contains "hours" or "time" —
hence for any letter case of those words — both answer functions return
their Hours template, under every backend, regardless of other keywords;
in particular "What are your volunteer hours?" gets the Hours template,
which differs from the Volunteer template. -/
theorem claim_C2 (ai_model : Option Backend) (q : String)
    (h : pyIn "hours" (pyLower q) = true ∨ pyIn "time" (pyLower q) = true) :
    AIApp.get_chatbot_answer ai_model q = AIApp.hoursResponse
    ∧ SimpleApp.get_chatbot_answer q = SimpleApp.hoursAnswer
    ∧ AIApp.get_chatbot_answer ai_model "What are your volunteer hours?" = AIApp.hoursResponse
    ∧ AIApp.hoursResponse ≠ AIApp.volunteerResponse := by
  refine ⟨?_, ?_, ?_, ?_⟩
  · simp only [AIApp.get_chatbot_answer]
    rcases h with h | h <;> simp [h]
  · simp only [SimpleApp.get_chatbot_answer]
    rcases h with h | h <;> simp [h]
  · exact answer_matched (by decide) ai_model
  · decide

/-- C2 witness: the priority scenario at a concrete input. -/
theorem claim_C2_witness :
    AIApp.get_chatbot_answer none "What are your volunteer hours?" = AIApp.hoursResponse
    ∧ SimpleApp.get_chatbot_answer "What are your volunteer hours?" = SimpleApp.hoursAnswer
    ∧ AIApp.get_chatbot_answer none "What are your volunteer hours?" = AIApp.hoursResponse
    ∧ AIApp.hoursResponse ≠ AIApp.volunteerResponse :=
  claim_C2 none "What are your volunteer hours?" (Or.inl (by decide))

/-- C3 counterexample: in app.py the unmatched fallback interpolates the
question (line 32), so the answer is not one constant string independent
of the input: two unmatched inputs get different answers. -/
theorem claim_C3_counterexample :
    SimpleApp.get_chatbot_answer "Hello, how are you?"
      ≠ SimpleApp.get_chatbot_answer "Goodbye" := by
  decide

/-- C3 (amended): with no backend configured, AI_app.py's answer for every
unmatched input is the one fixed default message (AI_app.py line 142), and
"Hello, how are you?" gets exactly it; app.py's fallback instead
interpolates the lowercased question into its message, so it varies with
the input. -/
theorem claim_C3 (q : String) (h : classify q = Category.unmatched) :
    AIApp.get_chatbot_answer none q = AIApp.defaultResponse
    ∧ AIApp.get_chatbot_answer none "Hello, how are you?" = AIApp.defaultResponse
    ∧ SimpleApp.get_chatbot_answer q = SimpleApp.defaultAnswer (pyLower q) :=
  ⟨answer_unmatched_none h, answer_unmatched_none (by decide),
   simple_answer_unmatched h⟩

/-- C3 witness: the amended claim at the concrete unmatched input. -/
theorem claim_C3_witness :
    AIApp.get_chatbot_answer none "Hello, how are you?" = AIApp.defaultResponse
    ∧ AIApp.get_chatbot_answer none "Hello, how are you?" = AIApp.defaultResponse
    ∧ SimpleApp.get_chatbot_answer "Hello, how are you?"
        = SimpleApp.defaultAnswer (pyLower "Hello, how are you?") :=
  claim_C3 "Hello, how are you?" (by decide)

/-- C4: every empty or whitespace-only input is classified `unmatched`,
and (with no backend configured) both answer functions deterministically
return their fallback: AI_app.py the fixed default, app.py its
interpolated default.  The embedding is total, so no exception arises. -/
theorem claim_C4 (q : String) (h : ∀ c ∈ q.data, c.isWhitespace = true) :
    classify q = Category.unmatched
    ∧ AIApp.get_chatbot_answer none q = AIApp.defaultResponse
    ∧ SimpleApp.get_chatbot_answer q = SimpleApp.defaultAnswer (pyLower q) := by
  have hc := classify_ws_unmatched h
  exact ⟨hc, answer_unmatched_none hc, simple_answer_unmatched hc⟩

/-- C4 witness: the empty input and a whitespace-only input. -/
theorem claim_C4_witness :
    (classify "" = Category.unmatched
      ∧ AIApp.get_chatbot_answer none "" = AIApp.defaultResponse
      ∧ SimpleApp.get_chatbot_answer "" = SimpleApp.defaultAnswer (pyLower ""))
    ∧ (classify " \t  " = Category.unmatched
      ∧ AIApp.get_chatbot_answer none " \t  " = AIApp.defaultResponse
      ∧ SimpleApp.get_chatbot_answer " \t  " = SimpleApp.defaultAnswer (pyLower " \t  ")) :=
  ⟨claim_C4 "" (by decide), claim_C4 " \t  " (by decide)⟩

/-- C5: under every backend condition (absent, present, failing — the
`Backend` type covers the latter two and totality of the embedding rules
out escaping exceptions) and for every input, both top-level answer
functions return a non-empty string. -/
theorem claim_C5 (ai_model : Option Backend) (question : String) :
    AIApp.get_chatbot_answer ai_model question ≠ ""
    ∧ SimpleApp.get_chatbot_answer question ≠ "" := by
  constructor
  · rw [← pyLen_pos_iff_ne_empty]
    rcases hc : classify question with _ | _ | _ | _ | _ | _ | _
    · rw [answer_matched (t := AIApp.hoursResponse) (by rw [hc]; rfl) ai_model]; decide
    · rw [answer_matched (t := AIApp.volunteerResponse) (by rw [hc]; rfl) ai_model]; decide
    · rw [answer_matched (t := AIApp.donateResponse) (by rw [hc]; rfl) ai_model]; decide
    · rw [answer_matched (t := AIApp.programsResponse) (by rw [hc]; rfl) ai_model]; decide
    · rw [answer_matched (t := AIApp.contactResponse) (by rw [hc]; rfl) ai_model]; decide
    · rw [answer_matched (t := AIApp.emergencyResponse) (by rw [hc]; rfl) ai_model]; decide
    · cases ai_model with
      | none => rw [answer_unmatched_none hc]; decide
      | some b =>
        rw [answer_unmatched_some b hc]
        rcases hg : generate_ai_response (some b) question with _ | r
        · decide
        · show 0 < pyLen (if r ≠ "" ∧ 0 < pyLen (pyStrip r) then
            AIApp.aiWrapResponse r else AIApp.defaultResponse)
          split_ifs
          · exact pyLen_aiWrap_pos r
          · decide
  · rw [← pyLen_pos_iff_ne_empty]
    simp only [SimpleApp.get_chatbot_answer]
    split_ifs
    · decide
    · decide
    · decide
    · decide
    · simp only [SimpleApp.defaultAnswer]
      rw [pyLen_append, pyLen_append]
      have h : 0 < pyLen "Thanks for asking about '" := by decide
      omega

/-- C6: for every unmatched input, the top-level answer silently falls
back to the fixed default message when the backend is absent, when
generation raises (the `Except.error` outcome), and when the output is
empty after stripping the echoed prompt; no error reaches the caller
(the embedding is total). -/
theorem claim_C6 (b : Backend) (q : String)
    (h : classify q = Category.unmatched) :
    AIApp.get_chatbot_answer none q = AIApp.defaultResponse
    ∧ (∀ e : Unit,
        b.generate (nonprofit_context ++ q) (pyLen (nonprofit_context ++ q) + 50)
          = Except.error e →
        AIApp.get_chatbot_answer (some b) q = AIApp.defaultResponse)
    ∧ (∀ decoded : String,
        b.generate (nonprofit_context ++ q) (pyLen (nonprofit_context ++ q) + 50)
          = Except.ok decoded →
        pyStrip (pyDrop decoded (pyLen (nonprofit_context ++ q))) = "" →
        AIApp.get_chatbot_answer (some b) q = AIApp.defaultResponse) := by
  refine ⟨answer_unmatched_none h, ?_, ?_⟩
  · intro e hgen
    have hg : generate_ai_response (some b) q = none := by
      simp [generate_ai_response, hgen]
    rw [answer_unmatched_some b h, hg]
  · intro decoded hgen hempty
    have hg : generate_ai_response (some b) q
        = some (if 200 < pyLen (pyStrip (pyDrop decoded (pyLen (nonprofit_context ++ q)))) then
            pyTake (pyStrip (pyDrop decoded (pyLen (nonprofit_context ++ q)))) 200 ++ "..."
          else pyStrip (pyDrop decoded (pyLen (nonprofit_context ++ q)))) := by
      simp [generate_ai_response, hgen]
    rw [answer_unmatched_some b h, hg, hempty]
    decide

/-- C6 witness: a backend that raises on every call, at a concrete
unmatched input. -/
theorem claim_C6_witness :
    AIApp.get_chatbot_answer (some failingBackend) "Hello, how are you?"
      = AIApp.defaultResponse
    ∧ AIApp.get_chatbot_answer none "Hello, how are you?" = AIApp.defaultResponse := by
  have h := claim_C6 failingBackend "Hello, how are you?" (by decide)
  exact ⟨h.2.1 () rfl, h.1⟩

/-- C7: when the fallback generator runs and the backend call — made with
`max_length` = prompt length + 50 (the 50-unit cap beyond the input
length) — succeeds, the returned text is the continuation after the full
prompt (the echoed prompt stripped, whitespace trimmed), truncated to 200
characters with "..." appended exactly when it exceeds 200 characters, so
the result never exceeds 203 characters. -/
theorem claim_C7 (b : Backend) (q decoded : String)
    (hgen : b.generate (nonprofit_context ++ q) (pyLen (nonprofit_context ++ q) + 50)
      = Except.ok decoded) :
    ∃ r, generate_ai_response (some b) q = some r
      ∧ pyLen r ≤ 203
      ∧ (pyLen (pyStrip (pyDrop decoded (pyLen (nonprofit_context ++ q)))) ≤ 200 →
          r = pyStrip (pyDrop decoded (pyLen (nonprofit_context ++ q))))
      ∧ (200 < pyLen (pyStrip (pyDrop decoded (pyLen (nonprofit_context ++ q)))) →
          r = pyTake (pyStrip (pyDrop decoded (pyLen (nonprofit_context ++ q)))) 200 ++ "...") := by
  refine ⟨if 200 < pyLen (pyStrip (pyDrop decoded (pyLen (nonprofit_context ++ q)))) then
      pyTake (pyStrip (pyDrop decoded (pyLen (nonprofit_context ++ q)))) 200 ++ "..."
    else pyStrip (pyDrop decoded (pyLen (nonprofit_context ++ q))), ?_, ?_, ?_, ?_⟩
  · simp [generate_ai_response, hgen]
  · split_ifs with hlen
    · rw [pyLen_append]
      have h1 := pyLen_pyTake_le (pyStrip (pyDrop decoded (pyLen (nonprofit_context ++ q)))) 200
      have h2 : pyLen ("..." : String) = 3 := by decide
      omega
    · omega
  · intro hle
    rw [if_neg (by omega)]
  · intro hgt
    rw [if_pos hgt]

/-- C7 witness: a backend that echoes the prompt and appends a short
reply, at a concrete question. -/
theorem claim_C7_witness :
    ∃ r, generate_ai_response (some chattyBackend) "hi" = some r
      ∧ pyLen r ≤ 203
      ∧ (pyLen (pyStrip (pyDrop ((nonprofit_context ++ "hi") ++ "Sure, happy to help!")
            (pyLen (nonprofit_context ++ "hi")))) ≤ 200 →
          r = pyStrip (pyDrop ((nonprofit_context ++ "hi") ++ "Sure, happy to help!")
            (pyLen (nonprofit_context ++ "hi"))))
      ∧ (200 < pyLen (pyStrip (pyDrop ((nonprofit_context ++ "hi") ++ "Sure, happy to help!")
            (pyLen (nonprofit_context ++ "hi")))) →
          r = pyTake (pyStrip (pyDrop ((nonprofit_context ++ "hi") ++ "Sure, happy to help!")
            (pyLen (nonprofit_context ++ "hi")))) 200 ++ "...") :=
  claim_C7 chattyBackend "hi" ((nonprofit_context ++ "hi") ++ "Sure, happy to help!") rfl

/-- C8: category selection is a pure, deterministic function of the
lowercased input and the static keyword table — inputs with the same
normalization classify identically (so classifying twice yields the same
category), and exactly one category is selected per question. -/
theorem claim_C8 (q q' : String) (h : pyLower q = pyLower q') :
    classify q = classify q' ∧ ∃! c : Category, classify q = c := by
  constructor
  · simp only [classify]
    rw [h]
  · exact ⟨classify q, rfl, fun y hy => hy.symm⟩

/-- C8 witness: two case variants of the same question. -/
theorem claim_C8_witness :
    classify "Hi THERE" = classify "hi there"
    ∧ ∃! c : Category, classify "Hi THERE" = c :=
  claim_C8 "Hi THERE" "hi there" (by decide)

/-- C9: on every input in which some keyword of the table matches, the
top-level answer is the category template and is identical whether a
generative backend is configured or not — the backend is invoked only
when no keyword category matches. -/
theorem claim_C9 (ai_model : Option Backend) (q : String)
    (h : (keywordTable.any fun p => matchesKeywords q p.2) = true) :
    AIApp.get_chatbot_answer ai_model q = AIApp.get_chatbot_answer none q := by
  have hne : classify q ≠ Category.unmatched := by
    intro hu
    obtain ⟨h1, h2, h3, h4, h5, h6, h7, h8, h9, h10, h11, h12⟩ :=
      (classify_unmatched_iff q).mp hu
    simp [keywordTable, matchesKeywords, h1, h2, h3, h4, h5, h6, h7, h8, h9,
      h10, h11, h12] at h
  obtain ⟨t, ht⟩ : ∃ t, templateOf (classify q) = some t := by
    rcases hc : classify q with _ | _ | _ | _ | _ | _ | _
    · exact ⟨AIApp.hoursResponse, rfl⟩
    · exact ⟨AIApp.volunteerResponse, rfl⟩
    · exact ⟨AIApp.donateResponse, rfl⟩
    · exact ⟨AIApp.programsResponse, rfl⟩
    · exact ⟨AIApp.contactResponse, rfl⟩
    · exact ⟨AIApp.emergencyResponse, rfl⟩
    · exact absurd hc hne
  rw [answer_matched ht ai_model, answer_matched ht none]

/-- C9 witness: a keyword-matched input under a configured backend. -/
theorem claim_C9_witness :
    AIApp.get_chatbot_answer (some chattyBackend) "DONATE NOW"
      = AIApp.get_chatbot_answer none "DONATE NOW" :=
  claim_C9 (some chattyBackend) "DONATE NOW" (by decide)

/-- C10: the tab-2 upload handler is atomic with respect to the stored
dataset: when parsing fails the previous session entry (or its absence)
is unchanged and an error is shown, and the session entry changes only
when parsing succeeded, to the parsed data. -/
theorem claim_C10 (e : String) (st : Option DataFrame) :
    ((tab2_upload (Except.error e) st).sessionData = st
      ∧ (tab2_upload (Except.error e) st).errorShown = true)
    ∧ ∀ p : Except String DataFrame,
        (tab2_upload p st).sessionData ≠ st →
        ∃ d, p = Except.ok d ∧ (tab2_upload p st).sessionData = some d := by
  refine ⟨⟨rfl, rfl⟩, ?_⟩
  intro p hp
  match p with
  | Except.error e' => exact absurd rfl hp
  | Except.ok d =>
    by_cases hz : d.rows * d.cols = 0
    · exact absurd (by simp [tab2_upload, hz]) hp
    · exact ⟨d, rfl, by simp [tab2_upload, hz]⟩

/-- C10 witness: a failed parse leaves an empty session empty; a
successful parse of a 1-row, 2-column file stores that data. -/
theorem claim_C10_witness :
    ((tab2_upload (Except.error "bad csv") none).sessionData = none
      ∧ (tab2_upload (Except.error "bad csv") none).errorShown = true)
    ∧ ∃ d, (Except.ok (DataFrame.mk 1 2 0) : Except String DataFrame) = Except.ok d
        ∧ (tab2_upload (Except.ok (DataFrame.mk 1 2 0)) none).sessionData = some d :=
  ⟨(claim_C10 "bad csv" none).1,
   (claim_C10 "bad csv" none).2 (Except.ok (DataFrame.mk 1 2 0)) (by decide)⟩
